import Mathlib

/-! The database bootstrap of job_queue (`internal/config`, `internal/db`).

A shallow embedding of `findProjectRoot` (config.go) and of `findMigrationsDir`,
`EnsureDatabase` and `RunMigrations` (migrate.go).

* Go strings are byte sequences (`GoString`); `len`, indexing, `strings.HasPrefix`,
  `strings.TrimPrefix` and `strings.ReplaceAll` act on bytes.
* The operating system, `path/filepath`, the connection pool and the migration
  engine are not part of the repository.  They are the fields of `Env`; every
  theorem quantifies over all of them.
* The database server is a set of database names (`Server`).  It reads a
  `CREATE DATABASE` statement by the SQL rule for quoted identifiers; `pool.Exec` can
  also come back with an error of its own (`Env.execErr`), the server then unchanged.
* Each operation returns, next to its Go result, the server it leaves behind and
  the list of external calls it made (`Event`), in program order.
-/

namespace JobQueue

/-! ## Strings and errors -/

/-- A Go `string`: a sequence of bytes. -/
abbrev GoString := List UInt8

/-- The bytes of an ASCII string literal. -/
def lit (s : String) : GoString := s.data.map fun c => UInt8.ofNat c.toNat

/-- The byte `"` (0x22). -/
def dquote : UInt8 := 34

/-- A Go `error` value.  `ErrNoChange` is the sentinel `migrate.ErrNoChange`;
`wrap ctx inner` is `fmt.Errorf(ctx + ": %w", inner)`. -/
inductive GoError where
  | ErrNoChange : GoError
  | other (msg : GoString) : GoError
  | wrap (ctx : GoString) (inner : GoError) : GoError
  deriving DecidableEq, Repr

/-- Go's `strings.HasPrefix`. -/
def HasPrefix (s pre : GoString) : Bool := pre.isPrefixOf s

/-- Go's `strings.TrimPrefix`. -/
def TrimPrefix (s pre : GoString) : GoString :=
  if HasPrefix s pre then s.drop pre.length else s

/-- Go's `strings.ReplaceAll(s, old, new)` for a one-byte `old`, which is how both call
sites use it (`"` in `EnsureDatabase`, the separator in `filepath.ToSlash`). -/
def ReplaceAll (s : GoString) (old : UInt8) (new : GoString) : GoString :=
  s.flatMap fun c => if c = old then new else [c]

/-! ## `EnsureDatabase`: the statement text (migrate.go 70-73) -/

/-- The local `safeDBName`: `strings.ReplaceAll(dbName, "\"", "\"\"")`. -/
def safeDBName (dbName : GoString) : GoString :=
  ReplaceAll dbName dquote [dquote, dquote]

/-- The local `quotedDBName`: `fmt.Sprintf("\"%s\"", safeDBName)`. -/
def quotedDBName (dbName : GoString) : GoString :=
  [dquote] ++ safeDBName dbName ++ [dquote]

/-- The statement handed to `pool.Exec`: `fmt.Sprintf("CREATE DATABASE %s", quotedDBName)`. -/
def createStatement (dbName : GoString) : GoString :=
  lit "CREATE DATABASE " ++ quotedDBName dbName

/-! ## The SQL rule for quoted identifiers -/

/-- Reads the inside of a quoted identifier, the opening quote already consumed:
a pair `""` stands for one quote, a lone `"` ends the identifier.  Returns the
name read and the unread rest; `none` when the identifier is never closed. -/
def readQuotedBody : GoString → Option (GoString × GoString)
  | [] => none
  | c :: cs =>
    if c = dquote then
      match cs with
      | [] => some ([], [])
      | d :: ds =>
        if d = dquote then
          match readQuotedBody ds with
          | some (name, rest) => some (dquote :: name, rest)
          | none => none
        else some ([], d :: ds)
    else
      match readQuotedBody cs with
      | some (name, rest) => some (c :: name, rest)
      | none => none

/-- Reads one quoted identifier from the front of the input. -/
def readQuotedIdent : GoString → Option (GoString × GoString)
  | [] => none
  | c :: cs => if c = dquote then readQuotedBody cs else none

/-! ## The environment -/

/-- What `os.Stat` reports about an entry (only `IsDir()` is consulted). -/
structure FileInfo where
  IsDir : Bool
  deriving DecidableEq, Repr

/-- The external calls the program makes, recorded in program order. -/
inductive Event where
  | getwd : Event
  | stat (path : GoString) : Event
  | poolNew (url : GoString) : Event
  | queryRow (dbName : GoString) : Event
  | exec (stmt : GoString) : Event
  | printCreated (dbName : GoString) : Event
  | poolClose : Event
  | migrateNew (sourceURL databaseURL : GoString) : Event
  | up (sourceURL databaseURL : GoString) : Event
  deriving DecidableEq, Repr

/-- Everything outside the repository that the program calls: `os`, `path/filepath`,
`pgxpool` and `golang-migrate`.  A field that returns `Option GoError` returns the
Go `error` of the call (`none` is `nil`).

`depth` and `Dir_depth` say that `filepath.Dir` makes progress until it reaches a
fixed point (the filesystem root), and `migrations_not_abs` that the relative name
`migrations` is not an absolute path. -/
structure Env where
  /-- The call `os.Getwd()`. -/
  Getwd : Except GoError GoString
  /-- The call `os.Stat(path)`. -/
  Stat : GoString → Except GoError FileInfo
  /-- The constant `filepath.Separator`. -/
  Separator : UInt8
  /-- The call `filepath.Join(dir, elem)`. -/
  Join : GoString → GoString → GoString
  /-- The call `filepath.Dir(path)`. -/
  Dir : GoString → GoString
  /-- The call `filepath.IsAbs(path)`. -/
  IsAbs : GoString → Bool
  /-- The call `filepath.Clean(path)`. -/
  Clean : GoString → GoString
  /-- The call `filepath.Rel(basepath, targpath)`. -/
  Rel : GoString → GoString → Except GoError GoString
  /-- The error, if any, of `pgxpool.New(ctx, url)`. -/
  poolNew : GoString → Option GoError
  /-- The error, if any, of running the catalog query for a name and scanning its row. -/
  queryRow : GoString → Option GoError
  /-- The error, if any, with which `pool.Exec(ctx, stmt)` comes back before the statement
  takes effect (the connection drops, the role may not create databases, ...). -/
  execErr : GoString → Option GoError
  /-- The error, if any, of `migrate.New(sourceURL, databaseURL)`. -/
  migrateNew : GoString → GoString → Option GoError
  /-- The error, if any, of `m.Up()` on the instance made from the two URLs. -/
  Up : GoString → GoString → Option GoError
  /-- A measure that `filepath.Dir` decreases. -/
  depth : GoString → Nat
  /-- Each step of `filepath.Dir` that is not at a fixed point decreases `depth`. -/
  Dir_depth : ∀ p, Dir p ≠ p → depth (Dir p) < depth p
  /-- The name `migrations` is a relative path. -/
  migrations_not_abs : IsAbs (lit "migrations") = false

/-- Go's `filepath.ToSlash`. -/
def ToSlash (env : Env) (path : GoString) : GoString :=
  if env.Separator = 47 then path else ReplaceAll path env.Separator (lit "/")

/-- Go's `filepath.Abs` (`unixAbs`): a path that is already absolute is cleaned,
any other path is joined to the working directory. -/
def Abs (env : Env) (path : GoString) : Except GoError GoString × List Event :=
  if env.IsAbs path then (.ok (env.Clean path), [])
  else
    match env.Getwd with
    | .error err => (.error err, [.getwd])
    | .ok wd => (.ok (env.Join wd path), [.getwd])

/-! ## The database server -/

/-- The server: the set of names of the databases it holds. -/
abbrev Server := List GoString

/-- The catalog query `SELECT EXISTS(SELECT 1 FROM pg_database WHERE datname = $1)`. -/
def Server.databaseExists (srv : Server) (dbName : GoString) : Bool :=
  decide (dbName ∈ srv)

/-- The server executing a statement.  It accepts `CREATE DATABASE ` followed by
exactly one quoted identifier, read by the SQL rule, and adds the name read; it
rejects the statement when that name is already there and when the text is
anything else. -/
def Server.exec (srv : Server) (stmt : GoString) : Except GoError Server :=
  if HasPrefix stmt (lit "CREATE DATABASE ") then
    match readQuotedIdent (stmt.drop (lit "CREATE DATABASE ").length) with
    | some (name, []) =>
      if name ∈ srv then .error (.other (lit "database already exists"))
      else .ok (name :: srv)
    | _ => .error (.other (lit "syntax error"))
  else .error (.other (lit "syntax error"))

/-- The call `pool.Exec(ctx, stmt)`: the error the environment gives it, if any, and
otherwise what the server makes of the statement. -/
def poolExec (env : Env) (srv : Server) (stmt : GoString) : Except GoError Server :=
  match env.execErr stmt with
  | some err => .error err
  | none => srv.exec stmt

/-- What a call that talks to the server leaves behind: its Go `error` result,
the server afterwards, and the external calls it made. -/
structure Outcome where
  err : Option GoError
  server : Server
  trace : List Event
  deriving DecidableEq, Repr

/-! ## config.go -/

/-- The `for` loop of `findProjectRoot` from `dir` on: `some d` when it returns `d`,
`none` when it breaks at the root; with the `os.Stat` calls made. -/
def findProjectRoot.loop (env : Env) (dir : GoString) : Option GoString × List Event :=
  match env.Stat (env.Join dir (lit "go.mod")) with
  | .ok _ => (some dir, [.stat (env.Join dir (lit "go.mod"))])
  | .error _ =>
    if _atRoot : env.Dir dir = dir then
      (none, [.stat (env.Join dir (lit "go.mod"))])
    else
      let r := findProjectRoot.loop env (env.Dir dir)
      (r.1, .stat (env.Join dir (lit "go.mod")) :: r.2)
termination_by env.depth dir
decreasing_by exact env.Dir_depth dir _atRoot

/-- The function `findProjectRoot` of config.go: the path returned and the calls made. -/
def findProjectRoot (env : Env) : GoString × List Event :=
  match env.Getwd with
  | .error _ => (lit ".", [.getwd])
  | .ok wd =>
    match findProjectRoot.loop env wd with
    | (some dir, t) => (dir, .getwd :: t)
    | (none, t) => (wd, .getwd :: t)

/-! ## migrate.go -/

/-- The `for` loop of `findMigrationsDir` from `dir` on: `some p` when it returns `p`,
`none` when it breaks at the root; with the `os.Stat` calls made. -/
def findMigrationsDir.loop (env : Env) (dir : GoString) : Option GoString × List Event :=
  let migrationsPath := env.Join dir (lit "migrations")
  let found :=
    match env.Stat migrationsPath with
    | .ok info => info.IsDir
    | .error _ => false
  if found then (some migrationsPath, [.stat migrationsPath])
  else
    if _atRoot : env.Dir dir = dir then
      (none, [.stat migrationsPath])
    else
      let r := findMigrationsDir.loop env (env.Dir dir)
      (r.1, .stat migrationsPath :: r.2)
termination_by env.depth dir
decreasing_by exact env.Dir_depth dir _atRoot

/-- The function `findMigrationsDir` of migrate.go: its `(string, error)` result and the
calls made. -/
def findMigrationsDir (env : Env) : Except GoError GoString × List Event :=
  match env.Getwd with
  | .error err => (.error (.wrap (lit "failed to get working directory") err), [.getwd])
  | .ok wd =>
    match findMigrationsDir.loop env wd with
    | (some migrationsPath, t) => (.ok migrationsPath, .getwd :: t)
    | (none, t) =>
      match Abs env (lit "migrations") with
      | (.error err, t2) =>
        (.error (.wrap (lit "failed to find migrations directory") err), .getwd :: t ++ t2)
      | (.ok migrationsPath, t2) => (.ok migrationsPath, .getwd :: t ++ t2)

/-- The local `defaultDBURL` of `EnsureDatabase`: the address of the administrative
database `postgres`. -/
def defaultDBURL (user password host port : GoString) : GoString :=
  lit "postgres://" ++ user ++ lit ":" ++ password ++ lit "@" ++ host ++ lit ":" ++ port ++
    lit "/postgres?sslmode=disable"

/-- The function `EnsureDatabase` of migrate.go. -/
def EnsureDatabase (env : Env) (user password host port dbName : GoString)
    (srv : Server) : Outcome :=
  let defaultDBURL := defaultDBURL user password host port
  match env.poolNew defaultDBURL with
  | some err =>
    ⟨some (.wrap (lit "failed to connect to postgres database") err), srv,
      [.poolNew defaultDBURL]⟩
  | none =>
    match env.queryRow dbName with
    | some err =>
      ⟨some (.wrap (lit "failed to check if database exists") err), srv,
        [.poolNew defaultDBURL, .queryRow dbName, .poolClose]⟩
    | none =>
      -- the local `exists`
      let dbExists := srv.databaseExists dbName
      if !dbExists then
        match poolExec env srv (createStatement dbName) with
        | .error err =>
          ⟨some (.wrap (lit "failed to create database " ++ dbName) err), srv,
            [.poolNew defaultDBURL, .queryRow dbName, .exec (createStatement dbName),
              .poolClose]⟩
        | .ok srv' =>
          ⟨none, srv',
            [.poolNew defaultDBURL, .queryRow dbName, .exec (createStatement dbName),
              .printCreated dbName, .poolClose]⟩
      else
        ⟨none, srv, [.poolNew defaultDBURL, .queryRow dbName, .poolClose]⟩

/-- The local `dbURL` of `RunMigrations`. -/
def dbURL (user password host port dbName : GoString) : GoString :=
  lit "postgres://" ++ user ++ lit ":" ++ password ++ lit "@" ++ host ++ lit ":" ++ port ++
    lit "/" ++ dbName ++ lit "?sslmode=disable"

/-- Lines 139-143 of migrate.go: the relative path with forward slashes, given `./` in
front unless it already starts with `.`. -/
def normalizeRelPath (env : Env) (relPath : GoString) : GoString :=
  let relPath := ToSlash env relPath
  if !HasPrefix relPath (lit ".") then lit "./" ++ relPath else relPath

/-- The function `RunMigrations` of migrate.go. -/
def RunMigrations (env : Env) (user password host port dbName : GoString)
    (srv : Server) : Outcome :=
  let r := EnsureDatabase env user password host port dbName srv
  match r.err with
  | some err => ⟨some (.wrap (lit "failed to ensure database exists") err), r.server, r.trace⟩
  | none =>
    let dbURL := dbURL user password host port dbName
    match findMigrationsDir env with
    | (.error err, t1) => ⟨some err, r.server, r.trace ++ t1⟩
    | (.ok migrationsPath, t1) =>
      match env.Getwd with
      | .error err =>
        ⟨some (.wrap (lit "failed to get working directory") err), r.server,
          r.trace ++ t1 ++ [.getwd]⟩
      | .ok wd =>
        match env.Rel wd migrationsPath with
        | .error _ =>
          match Abs env migrationsPath with
          | (.error err, t2) =>
            ⟨some (.wrap (lit "failed to get migrations path") err), r.server,
              r.trace ++ t1 ++ [.getwd] ++ t2⟩
          | (.ok migrationsPath, t2) =>
            let migrationsPath := ToSlash env migrationsPath
            if 1 < migrationsPath.length ∧ migrationsPath[1]? = some 58 then
              let fileURL := lit "file:///" ++ TrimPrefix migrationsPath (lit "/")
              match env.migrateNew fileURL dbURL with
              | some err =>
                ⟨some (.wrap (lit "failed to create migrate instance") err), r.server,
                  r.trace ++ t1 ++ [.getwd] ++ t2 ++ [.migrateNew fileURL dbURL]⟩
              | none =>
                match env.Up fileURL dbURL with
                | some err =>
                  if err ≠ .ErrNoChange then
                    ⟨some (.wrap (lit "failed to run migrations") err), r.server,
                      r.trace ++ t1 ++ [.getwd] ++ t2 ++
                        [.migrateNew fileURL dbURL, .up fileURL dbURL]⟩
                  else
                    ⟨none, r.server,
                      r.trace ++ t1 ++ [.getwd] ++ t2 ++
                        [.migrateNew fileURL dbURL, .up fileURL dbURL]⟩
                | none =>
                  ⟨none, r.server,
                    r.trace ++ t1 ++ [.getwd] ++ t2 ++
                      [.migrateNew fileURL dbURL, .up fileURL dbURL]⟩
            else
              let fileURL := lit "file://" ++ migrationsPath
              match env.migrateNew fileURL dbURL with
              | some err =>
                ⟨some (.wrap (lit "failed to create migrate instance") err), r.server,
                  r.trace ++ t1 ++ [.getwd] ++ t2 ++ [.migrateNew fileURL dbURL]⟩
              | none =>
                match env.Up fileURL dbURL with
                | some err =>
                  if err ≠ .ErrNoChange then
                    ⟨some (.wrap (lit "failed to run migrations") err), r.server,
                      r.trace ++ t1 ++ [.getwd] ++ t2 ++
                        [.migrateNew fileURL dbURL, .up fileURL dbURL]⟩
                  else
                    ⟨none, r.server,
                      r.trace ++ t1 ++ [.getwd] ++ t2 ++
                        [.migrateNew fileURL dbURL, .up fileURL dbURL]⟩
                | none =>
                  ⟨none, r.server,
                    r.trace ++ t1 ++ [.getwd] ++ t2 ++
                      [.migrateNew fileURL dbURL, .up fileURL dbURL]⟩
        | .ok relPath =>
          let relPath := normalizeRelPath env relPath
          let fileURL := lit "file://" ++ relPath
          match env.migrateNew fileURL dbURL with
          | some err =>
            ⟨some (.wrap (lit "failed to create migrate instance") err), r.server,
              r.trace ++ t1 ++ [.getwd] ++ [.migrateNew fileURL dbURL]⟩
          | none =>
            match env.Up fileURL dbURL with
            | some err =>
              if err ≠ .ErrNoChange then
                ⟨some (.wrap (lit "failed to run migrations") err), r.server,
                  r.trace ++ t1 ++ [.getwd] ++
                    [.migrateNew fileURL dbURL, .up fileURL dbURL]⟩
              else
                ⟨none, r.server,
                  r.trace ++ t1 ++ [.getwd] ++
                    [.migrateNew fileURL dbURL, .up fileURL dbURL]⟩
            | none =>
              ⟨none, r.server,
                r.trace ++ t1 ++ [.getwd] ++
                  [.migrateNew fileURL dbURL, .up fileURL dbURL]⟩

/-! ## Vocabulary of the statements -/

/-- The directory `dir` contains the marker: `os.Stat` of `dir/go.mod` succeeds. -/
def containsMarker (env : Env) (dir : GoString) : Bool :=
  match env.Stat (env.Join dir (lit "go.mod")) with
  | .ok _ => true
  | .error _ => false

/-- The directory `dir` has an entry `migrations` that is a directory. -/
def hasMigrationsDir (env : Env) (dir : GoString) : Bool :=
  match env.Stat (env.Join dir (lit "migrations")) with
  | .ok info => info.IsDir
  | .error _ => false

/-- The `k`-th directory of the chain `wd, parent(wd), parent(parent(wd)), ...`; the
chain stays at the filesystem root once it reaches it. -/
def ancestor (env : Env) (k : Nat) (wd : GoString) : GoString :=
  env.Dir^[k] wd

/-! ## Vocabulary of the statements, continued -/

/-- The event is a directory lookup: `os.Getwd` or `os.Stat`. -/
def Event.isDirLookup : Event → Bool
  | .getwd => true
  | .stat _ => true
  | _ => false

/-- The event is a call to the migration engine: `migrate.New` or `Up`. -/
def Event.isEngineCall : Event → Bool
  | .migrateNew _ _ => true
  | .up _ _ => true
  | _ => false

/-- The event is a `CREATE DATABASE` statement sent to the server. -/
def Event.isCreateDatabase : Event → Bool
  | .exec stmt => HasPrefix stmt (lit "CREATE DATABASE ")
  | _ => false

/-- How many `CREATE DATABASE` statements a trace issues. -/
def createCount (trace : List Event) : Nat :=
  trace.countP Event.isCreateDatabase

/-- The path `p` with one leading `/` removed if present. -/
def dropLeadingSlash : GoString → GoString
  | c :: rest => if c = 47 then rest else c :: rest
  | [] => []

/-- The source URL the absolute-path fallback is required to build from the
slash-normalized absolute path `p`. -/
def absoluteSourceURL (p : GoString) : GoString :=
  if 1 < p.length ∧ p[1]? = some 58 then lit "file:///" ++ dropLeadingSlash p
  else lit "file://" ++ p

/-! ## The three copies of the engine call, factored -/

/-- Lines 146-155 of migrate.go, which lines 117-124 and 128-135 repeat: make the
engine from the two URLs and run `Up`.  `before` is the trace so far. -/
def newAndUp (env : Env) (fileURL dbURL : GoString) (server : Server)
    (before : List Event) : Outcome :=
  match env.migrateNew fileURL dbURL with
  | some err =>
    ⟨some (.wrap (lit "failed to create migrate instance") err), server,
      before ++ [.migrateNew fileURL dbURL]⟩
  | none =>
    match env.Up fileURL dbURL with
    | some err =>
      if err ≠ .ErrNoChange then
        ⟨some (.wrap (lit "failed to run migrations") err), server,
          before ++ [.migrateNew fileURL dbURL, .up fileURL dbURL]⟩
      else
        ⟨none, server, before ++ [.migrateNew fileURL dbURL, .up fileURL dbURL]⟩
    | none => ⟨none, server, before ++ [.migrateNew fileURL dbURL, .up fileURL dbURL]⟩

/-- The `fileURL` of the absolute-path fallback (lines 114-127 of migrate.go), from the
slash-normalized path. -/
def fallbackFileURL (migrationsPath : GoString) : GoString :=
  if 1 < migrationsPath.length ∧ migrationsPath[1]? = some 58 then
    lit "file:///" ++ TrimPrefix migrationsPath (lit "/")
  else lit "file://" ++ migrationsPath

/-! ## Instances of the environment -/

/-- Go's `filepath.Dir`, exact on clean absolute paths (`/a/b`, and `C:\a\b` on Windows): the
path up to its last separator, without that separator unless it ends the root. -/
def hostDir (windows : Bool) (p : GoString) : GoString :=
  let sep : UInt8 := if windows then 92 else 47
  let d := p.rdropWhile fun c => c != sep
  if d.length ≤ 1 then d
  else if windows ∧ d.length = 3 ∧ d[1]? = some 58 then d
  else d.dropLast

/-- Go's `filepath.Join`, exact for a clean directory and a plain name. -/
def hostJoin (windows : Bool) (dir elem : GoString) : GoString :=
  let sep : UInt8 := if windows then 92 else 47
  if dir.getLast? = some sep then dir ++ elem else dir ++ [sep] ++ elem

/-- Go's `filepath.IsAbs`: a leading `/` on POSIX, a drive letter and `:\` on Windows. -/
def hostIsAbs (windows : Bool) (p : GoString) : Bool :=
  if windows then decide (p[1]? = some 58 ∧ p[2]? = some 92) else HasPrefix p (lit "/")

/-- An environment of a POSIX or a Windows host.  The working directory, the filesystem
entries, the answers of `filepath.Rel` and the errors of the pool and of the engine are
given. -/
def hostEnv (windows : Bool) (getwd : Except GoError GoString)
    (stat : GoString → Except GoError FileInfo)
    (rel : GoString → GoString → Except GoError GoString)
    (poolNew queryRow execErr : Option GoError) (migrateNew up : Option GoError) : Env where
  Getwd := getwd
  Stat := stat
  Separator := if windows then 92 else 47
  Join := hostJoin windows
  Dir := hostDir windows
  IsAbs := hostIsAbs windows
  Clean := fun p => p
  Rel := rel
  poolNew := fun _ => poolNew
  queryRow := fun _ => queryRow
  execErr := fun _ => execErr
  migrateNew := fun _ _ => migrateNew
  Up := fun _ _ => up
  depth := List.length
  Dir_depth := by
    intro p hne
    have hpre : hostDir windows p <+: p := by
      unfold hostDir
      simp only
      split_ifs <;>
        first
        | exact List.rdropWhile_prefix _ _
        | exact (List.dropLast_prefix _).trans (List.rdropWhile_prefix _ _)
    rcases Nat.lt_or_ge (hostDir windows p).length p.length with hlt | hge
    · exact hlt
    · exact absurd (hpre.eq_of_length (Nat.le_antisymm hpre.length_le hge)) hne
  migrations_not_abs := by cases windows <;> decide

/-- An entry that `os.Stat` does not find. -/
def notExist : Except GoError FileInfo := .error (.other (lit "no such file or directory"))

/-- A filesystem whose only entries are the directories `/p`, `/p/cmd` and
`/p/migrations` and the file `/p/go.mod`. -/
def projectFS (path : GoString) : Except GoError FileInfo :=
  if path = lit "/p/go.mod" then .ok ⟨false⟩
  else if path = lit "/p/migrations" ∨ path = lit "/p" ∨ path = lit "/p/cmd" then .ok ⟨true⟩
  else notExist

/-- The answer of `filepath.Rel` from `/p/cmd` to `/p/migrations`. -/
def projectRel (basepath targpath : GoString) : Except GoError GoString :=
  if basepath = lit "/p/cmd" ∧ targpath = lit "/p/migrations" then .ok (lit "../migrations")
  else .error (.other (lit "Rel: can't make path relative"))

/-- A `filepath.Rel` that fails. -/
def relFails (_basepath _targpath : GoString) : Except GoError GoString :=
  .error (.other (lit "Rel: can't make path relative"))

/-- The process runs in `/p/cmd` of `projectFS`; the pool and the engine report no error. -/
def projectEnv : Env :=
  hostEnv false (.ok (lit "/p/cmd")) projectFS projectRel none none none none none

/-- As `projectEnv`, with the engine reporting that nothing is pending. -/
def noChangeEnv : Env :=
  hostEnv false (.ok (lit "/p/cmd")) projectFS projectRel none none none none
    (some .ErrNoChange)

/-- As `projectEnv`, with a `filepath.Rel` that fails. -/
def relFailsEnv : Env :=
  hostEnv false (.ok (lit "/p/cmd")) projectFS relFails none none none none none

/-- A filesystem whose only entries are the directories `/p`, `/p/cmd` and
`/p/cmd/migrations`. -/
def localFS (path : GoString) : Except GoError FileInfo :=
  if path = lit "/p/cmd/migrations" ∨ path = lit "/p" ∨ path = lit "/p/cmd" then .ok ⟨true⟩
  else notExist

/-- The answer of `filepath.Rel` from `/p/cmd` to `/p/cmd/migrations`. -/
def localRel (basepath targpath : GoString) : Except GoError GoString :=
  if basepath = lit "/p/cmd" ∧ targpath = lit "/p/cmd/migrations" then .ok (lit "migrations")
  else .error (.other (lit "Rel: can't make path relative"))

/-- The process runs in `/p/cmd` of `localFS`; the engine finds the database dirty. -/
def localEnv : Env :=
  hostEnv false (.ok (lit "/p/cmd")) localFS localRel none none none none
    (some (.other (lit "Dirty database version 2. Fix and force version.")))

/-- A filesystem whose only entries are the directories `/p` and `/p/cmd`. -/
def bareFS (path : GoString) : Except GoError FileInfo :=
  if path = lit "/p" ∨ path = lit "/p/cmd" then .ok ⟨true⟩ else notExist

/-- The process runs in `/p/cmd` of `bareFS`: no `go.mod` and no `migrations` anywhere. -/
def bareEnv : Env :=
  hostEnv false (.ok (lit "/p/cmd")) bareFS localRel none none none none none

/-- The working directory has been deleted: `os.Getwd` fails. -/
def deletedWdEnv : Env :=
  hostEnv false (.error (.other (lit "getwd: no such file or directory"))) projectFS
    projectRel none none none none none

/-- The role `app` may not create databases: the server refuses `CREATE DATABASE`. -/
def refusingEnv : Env :=
  hostEnv false (.ok (lit "/p/cmd")) projectFS projectRel none none
    (some (.other (lit "permission denied to create database"))) none none

/-- The server refuses connections. -/
def unreachableEnv : Env :=
  hostEnv false (.ok (lit "/p/cmd")) projectFS projectRel
    (some (.other (lit "connection refused"))) none none none none

/-- A Windows filesystem whose only entries are the directories `C:\p`, `C:\p\cmd` and
`C:\p\migrations`. -/
def windowsFS (path : GoString) : Except GoError FileInfo :=
  if path = lit "C:\\p\\migrations" ∨ path = lit "C:\\p" ∨ path = lit "C:\\p\\cmd" then
    .ok ⟨true⟩
  else notExist

/-- The process runs in `C:\p\cmd` of `windowsFS`, with a `filepath.Rel` that fails. -/
def windowsEnv : Env :=
  hostEnv true (.ok (lit "C:\\p\\cmd")) windowsFS relFails none none none none none

/-- The run of the end-to-end scenario in `env`: user `app`, password `x`, host
`localhost`, port `5432`, database `appdb`, against a fresh server. -/
def scenarioRun (env : Env) : Outcome :=
  RunMigrations env (lit "app") (lit "x") (lit "localhost") (lit "5432") (lit "appdb") []

/-- The call of `EnsureDatabase` of the scenario, against the server `srv`. -/
def scenarioEnsure (env : Env) (srv : Server) : Outcome :=
  EnsureDatabase env (lit "app") (lit "x") (lit "localhost") (lit "5432") (lit "appdb") srv

/-- The database URL of the scenario. -/
def scenarioDBURL : GoString :=
  dbURL (lit "app") (lit "x") (lit "localhost") (lit "5432") (lit "appdb")

/-! ## Theorems -/

theorem safeDBName_nil : safeDBName [] = [] := rfl

theorem safeDBName_cons (c : UInt8) (cs : GoString) :
    safeDBName (c :: cs) = (if c = dquote then [dquote, dquote] else [c]) ++ safeDBName cs := by
  simp [safeDBName, ReplaceAll]

/-- Reading an escaped name followed by the closing quote gives the name back
and leaves nothing unread. -/
theorem readQuotedBody_safeDBName (name : GoString) :
    readQuotedBody (safeDBName name ++ [dquote]) = some (name, []) := by
  induction name with
  | nil => simp [safeDBName_nil, readQuotedBody]
  | cons c cs ih =>
    rw [safeDBName_cons]
    by_cases h : c = dquote
    · subst h
      simp [readQuotedBody, ih]
    · have hstep : ∀ xs, readQuotedBody (c :: xs) =
          match readQuotedBody xs with
          | some (name, rest) => some (c :: name, rest)
          | none => none := by
        intro xs
        cases xs <;> simp [readQuotedBody, h]
      simp [h, hstep, ih]

/-- C1: for every database name, the identifier `EnsureDatabase` builds is one
well-formed SQL quoted identifier: read by the SQL rule it is consumed whole and
yields the original name; it is `"`, the name with every `"` doubled, `"`; and every
statement `EnsureDatabase` sends is `CREATE DATABASE ` followed by exactly that
identifier. -/
theorem C1_quoted_identifier_roundtrip (dbName : GoString) :
    readQuotedIdent (quotedDBName dbName) = some (dbName, []) ∧
    quotedDBName dbName =
      [dquote] ++ ReplaceAll dbName dquote [dquote, dquote] ++ [dquote] ∧
    ∀ (env : Env) (user password host port : GoString) (srv : Server) (stmt : GoString),
      Event.exec stmt ∈ (EnsureDatabase env user password host port dbName srv).trace →
      stmt = lit "CREATE DATABASE " ++ quotedDBName dbName := by
  refine ⟨?_, rfl, ?_⟩
  · simp [quotedDBName, readQuotedIdent, readQuotedBody_safeDBName]
  · intro env user password host port srv stmt
    unfold EnsureDatabase
    simp only
    repeat' split
    all_goals simp [createStatement]

/-! ### The upward walks -/

theorem ancestor_succ (env : Env) (k : Nat) (dir : GoString) :
    ancestor env (k + 1) dir = ancestor env k (env.Dir dir) := by
  simp [ancestor, Function.iterate_succ_apply]

theorem ancestor_of_root (env : Env) (dir : GoString) (h : env.Dir dir = dir) (k : Nat) :
    ancestor env k dir = dir := by
  induction k with
  | zero => rfl
  | succ k ih => rw [ancestor_succ, h, ih]

theorem findProjectRoot_loop_found (env : Env) (k : Nat) :
    ∀ dir, containsMarker env (ancestor env k dir) = true →
      (∀ j, j < k → containsMarker env (ancestor env j dir) = false) →
      (findProjectRoot.loop env dir).1 = some (ancestor env k dir) := by
  induction k with
  | zero =>
    intro dir hk _
    rw [findProjectRoot.loop]
    simp only [ancestor, Function.iterate_zero, id_eq, containsMarker] at hk ⊢
    split <;> simp_all
  | succ k ih =>
    intro dir hk hlt
    have h0 : containsMarker env dir = false := hlt 0 (Nat.succ_pos k)
    rw [findProjectRoot.loop]
    simp only [containsMarker] at h0
    split
    · simp_all
    · by_cases hroot : env.Dir dir = dir
      · rw [ancestor_of_root env dir hroot] at hk
        simp_all [containsMarker]
      · rw [dif_neg hroot, ancestor_succ]
        apply ih
        · rw [← ancestor_succ]; exact hk
        · intro j hj
          rw [← ancestor_succ]
          exact hlt (j + 1) (Nat.succ_lt_succ hj)

theorem findProjectRoot_loop_none (env : Env) :
    ∀ (n : Nat) (dir : GoString), env.depth dir = n →
      (∀ k, containsMarker env (ancestor env k dir) = false) →
      (findProjectRoot.loop env dir).1 = none := by
  intro n
  induction n using Nat.strong_induction_on with
  | _ n ih =>
    intro dir hn hno
    have h0 : containsMarker env dir = false := hno 0
    rw [findProjectRoot.loop]
    simp only [containsMarker] at h0
    split
    · simp_all
    · by_cases hroot : env.Dir dir = dir
      · rw [dif_pos hroot]
      · rw [dif_neg hroot]
        apply ih (env.depth (env.Dir dir)) (hn ▸ env.Dir_depth dir hroot) (env.Dir dir) rfl
        intro k
        rw [← ancestor_succ]
        exact hno (k + 1)

theorem findMigrationsDir_loop_found (env : Env) (k : Nat) :
    ∀ dir, hasMigrationsDir env (ancestor env k dir) = true →
      (∀ j, j < k → hasMigrationsDir env (ancestor env j dir) = false) →
      (findMigrationsDir.loop env dir).1 =
        some (env.Join (ancestor env k dir) (lit "migrations")) := by
  induction k with
  | zero =>
    intro dir hk _
    rw [findMigrationsDir.loop]
    simp only [ancestor, Function.iterate_zero, id_eq, hasMigrationsDir] at hk ⊢
    simp [hk]
  | succ k ih =>
    intro dir hk hlt
    have h0 : hasMigrationsDir env dir = false := hlt 0 (Nat.succ_pos k)
    rw [findMigrationsDir.loop]
    simp only [hasMigrationsDir] at h0
    simp only [h0]
    by_cases hroot : env.Dir dir = dir
    · rw [ancestor_of_root env dir hroot] at hk
      simp_all [hasMigrationsDir]
    · simp only [dif_neg hroot, ancestor_succ]
      simp only [Bool.false_eq_true, if_false]
      apply ih
      · rw [← ancestor_succ]; exact hk
      · intro j hj
        rw [← ancestor_succ]
        exact hlt (j + 1) (Nat.succ_lt_succ hj)

theorem findMigrationsDir_loop_none (env : Env) :
    ∀ (n : Nat) (dir : GoString), env.depth dir = n →
      (∀ k, hasMigrationsDir env (ancestor env k dir) = false) →
      (findMigrationsDir.loop env dir).1 = none := by
  intro n
  induction n using Nat.strong_induction_on with
  | _ n ih =>
    intro dir hn hno
    have h0 : hasMigrationsDir env dir = false := hno 0
    rw [findMigrationsDir.loop]
    simp only [hasMigrationsDir] at h0
    simp only [h0, Bool.false_eq_true, if_false]
    by_cases hroot : env.Dir dir = dir
    · rw [dif_pos hroot]
    · rw [dif_neg hroot]
      apply ih (env.depth (env.Dir dir)) (hn ▸ env.Dir_depth dir hroot) (env.Dir dir) rfl
      intro k
      rw [← ancestor_succ]
      exact hno (k + 1)

/-! ### Traces of the directory walk -/

theorem Event.not_engine_of_dirLookup (ev : Event) (h : ev.isDirLookup = true) :
    ev.isEngineCall = false := by
  cases ev <;> simp_all [Event.isDirLookup, Event.isEngineCall]

theorem findMigrationsDir_loop_trace (env : Env) :
    ∀ (n : Nat) (dir : GoString), env.depth dir = n →
      ∀ ev ∈ (findMigrationsDir.loop env dir).2, ev.isDirLookup = true := by
  intro n
  induction n using Nat.strong_induction_on with
  | _ n ih =>
    intro dir hn
    rw [findMigrationsDir.loop]
    simp only
    split
    · simp [Event.isDirLookup]
    · by_cases hroot : env.Dir dir = dir
      · simp [hroot, Event.isDirLookup]
      · simp only [dif_neg hroot, List.mem_cons]
        rintro ev (rfl | hev)
        · rfl
        · exact ih (env.depth (env.Dir dir)) (hn ▸ env.Dir_depth dir hroot) (env.Dir dir) rfl
            ev hev

theorem Abs_trace (env : Env) (path : GoString) :
    ∀ ev ∈ (Abs env path).2, ev.isDirLookup = true := by
  unfold Abs
  split
  · simp
  · split <;> simp [Event.isDirLookup]

theorem findMigrationsDir_trace (env : Env) :
    ∀ ev ∈ (findMigrationsDir env).2, ev.isDirLookup = true := by
  have hloop := findMigrationsDir_loop_trace env
  have habs := Abs_trace env (lit "migrations")
  unfold findMigrationsDir
  split
  · simp [Event.isDirLookup]
  · next wd _ =>
    have hl := hloop _ wd rfl
    split
    · next mp t heq =>
      rw [heq] at hl
      intro ev hev
      rcases List.mem_cons.1 hev with rfl | h
      · rfl
      · exact hl ev h
    · next t heq =>
      rw [heq] at hl
      split
      · next err t2 heq2 =>
        rw [heq2] at habs
        intro ev hev
        simp only [List.cons_append, List.mem_cons, List.mem_append] at hev
        rcases hev with rfl | h | h
        · rfl
        · exact hl ev h
        · exact habs ev h
      · next mp t2 heq2 =>
        rw [heq2] at habs
        intro ev hev
        simp only [List.cons_append, List.mem_cons, List.mem_append] at hev
        rcases hev with rfl | h | h
        · rfl
        · exact hl ev h
        · exact habs ev h

theorem findMigrationsDir_of_found (env : Env) (wd : GoString) (hwd : env.Getwd = .ok wd)
    (k : Nat) (hk : hasMigrationsDir env (ancestor env k wd) = true)
    (hlt : ∀ j, j < k → hasMigrationsDir env (ancestor env j wd) = false) :
    (findMigrationsDir env).1 = .ok (env.Join (ancestor env k wd) (lit "migrations")) := by
  have h := findMigrationsDir_loop_found env k wd hk hlt
  unfold findMigrationsDir
  rw [hwd]
  simp only
  split
  · next mp t heq => rw [heq] at h; simpa using h
  · next t heq => rw [heq] at h; simp at h

theorem findMigrationsDir_of_none (env : Env) (wd : GoString) (hwd : env.Getwd = .ok wd)
    (hno : ∀ k, hasMigrationsDir env (ancestor env k wd) = false) :
    (findMigrationsDir env).1 = .ok (env.Join wd (lit "migrations")) := by
  have h := findMigrationsDir_loop_none env _ wd rfl hno
  unfold findMigrationsDir
  rw [hwd]
  simp only
  split
  · next mp t heq => rw [heq] at h; simp at h
  · simp [Abs, env.migrations_not_abs, hwd]

theorem ancestor_add (env : Env) (n k : Nat) (wd : GoString) :
    ancestor env (n + k) wd = ancestor env k (ancestor env n wd) := by
  simp [ancestor, Nat.add_comm n k, Function.iterate_add_apply]

/-- Once the chain is at the root it stays there. -/
theorem ancestor_of_ge (env : Env) (n : Nat) (wd : GoString)
    (hroot : env.Dir (ancestor env n wd) = ancestor env n wd) (k : Nat) (hk : n ≤ k) :
    ancestor env k wd = ancestor env n wd := by
  obtain ⟨d, rfl⟩ := Nat.exists_eq_add_of_le hk
  rw [ancestor_add, ancestor_of_root env _ hroot]

/-- The chain from `/p/cmd` in `bareEnv` is `/p/cmd`, `/p`, `/`, `/`, ... -/
theorem bareEnv_chain (k : Nat) :
    ancestor bareEnv k (lit "/p/cmd") = lit "/p/cmd" ∨
    ancestor bareEnv k (lit "/p/cmd") = lit "/p" ∨
    ancestor bareEnv k (lit "/p/cmd") = lit "/" := by
  rcases Nat.lt_or_ge k 2 with h | h
  · interval_cases k
    · exact Or.inl (by decide)
    · exact Or.inr (Or.inl (by decide))
  · right; right
    rw [ancestor_of_ge bareEnv 2 (lit "/p/cmd") (by decide) k h]
    decide

/-! ### `findProjectRoot` and `findMigrationsDir` -/

/-- C2: with working directory `wd`, `findProjectRoot` returns the first directory of
the chain `wd, parent(wd), ...` (which ends at the filesystem root) that contains
`go.mod`; when no directory of the chain contains it, it returns `wd` itself. -/
theorem C2_findProjectRoot_first_marker (env : Env) (wd : GoString)
    (hwd : env.Getwd = .ok wd) :
    (∀ k, containsMarker env (ancestor env k wd) = true →
      (∀ j, j < k → containsMarker env (ancestor env j wd) = false) →
      (findProjectRoot env).1 = ancestor env k wd) ∧
    ((∀ k, containsMarker env (ancestor env k wd) = false) →
      (findProjectRoot env).1 = wd) := by
  constructor
  · intro k hk hlt
    have h := findProjectRoot_loop_found env k wd hk hlt
    unfold findProjectRoot
    rw [hwd]
    simp only
    split
    · next dir t heq => rw [heq] at h; simpa using h
    · next t heq => rw [heq] at h; simp at h
  · intro hno
    have h := findProjectRoot_loop_none env _ wd rfl hno
    unfold findProjectRoot
    rw [hwd]
    simp only
    split
    · next dir t heq => rw [heq] at h; simp at h
    · rfl

/-- In `projectEnv` the root found from `/p/cmd` is `/p`, one step up; in `bareEnv`,
with no `go.mod` up to the root, it is `/p/cmd` itself. -/
theorem C2_findProjectRoot_first_marker_witness :
    projectEnv.Getwd = .ok (lit "/p/cmd") ∧ (findProjectRoot projectEnv).1 = lit "/p" ∧
    bareEnv.Getwd = .ok (lit "/p/cmd") ∧ (findProjectRoot bareEnv).1 = lit "/p/cmd" :=
  ⟨rfl, (C2_findProjectRoot_first_marker projectEnv (lit "/p/cmd") rfl).1 1
    (by decide) (by decide), rfl,
    (C2_findProjectRoot_first_marker bareEnv (lit "/p/cmd") rfl).2 (fun k => by
      rcases bareEnv_chain k with h | h | h <;> rw [h] <;> decide)⟩

/-- C3: when `os.Getwd` succeeds with `wd`, `findMigrationsDir` returns without error:
`d/migrations` for the nearest directory `d` of the chain `wd, parent(wd), ...` whose
entry `migrations` is a directory, and `wd/migrations` when the chain has none. -/
theorem C3_findMigrationsDir_nearest (env : Env) (wd : GoString)
    (hwd : env.Getwd = .ok wd) :
    (∃ path, (findMigrationsDir env).1 = .ok path) ∧
    (∀ k, hasMigrationsDir env (ancestor env k wd) = true →
      (∀ j, j < k → hasMigrationsDir env (ancestor env j wd) = false) →
      (findMigrationsDir env).1 = .ok (env.Join (ancestor env k wd) (lit "migrations"))) ∧
    ((∀ k, hasMigrationsDir env (ancestor env k wd) = false) →
      (findMigrationsDir env).1 = .ok (env.Join wd (lit "migrations"))) := by
  have hfound := findMigrationsDir_of_found env wd hwd
  have hnone := findMigrationsDir_of_none env wd hwd
  refine ⟨?_, hfound, hnone⟩
  by_cases hex : ∃ k, hasMigrationsDir env (ancestor env k wd) = true
  · classical
    refine ⟨_, hfound (Nat.find hex) (Nat.find_spec hex) ?_⟩
    intro j hj
    simpa using Nat.find_min hex hj
  · refine ⟨_, hnone ?_⟩
    intro k
    simpa using fun h => hex ⟨k, h⟩

/-- In `projectEnv` the directory found from `/p/cmd` is `/p/migrations`, one step up; in
`bareEnv`, with no `migrations` up to the root, the result is `/p/cmd/migrations`. -/
theorem C3_findMigrationsDir_nearest_witness :
    projectEnv.Getwd = .ok (lit "/p/cmd") ∧
    (findMigrationsDir projectEnv).1 = .ok (lit "/p/migrations") ∧
    bareEnv.Getwd = .ok (lit "/p/cmd") ∧
    (findMigrationsDir bareEnv).1 = .ok (lit "/p/cmd/migrations") :=
  ⟨rfl, (C3_findMigrationsDir_nearest projectEnv (lit "/p/cmd") rfl).2.1 1
    (by decide) (by decide), rfl,
    (C3_findMigrationsDir_nearest bareEnv (lit "/p/cmd") rfl).2.2 (fun k => by
      rcases bareEnv_chain k with h | h | h <;> rw [h] <;> decide)⟩

/-- C8, as the code has it: when `os.Getwd` fails, both operations stop after that one
call, with no `os.Stat`; `findMigrationsDir` returns the failure (wrapped with
`failed to get working directory`), `findProjectRoot` returns the path `.`. -/
theorem C8_getwd_failure_stops (env : Env) (err : GoError) (hwd : env.Getwd = .error err) :
    findMigrationsDir env =
      (.error (.wrap (lit "failed to get working directory") err), [.getwd]) ∧
    findProjectRoot env = (lit ".", [.getwd]) := by
  simp [findMigrationsDir, findProjectRoot, hwd]

theorem C8_getwd_failure_stops_witness :
    deletedWdEnv.Getwd = .error (.other (lit "getwd: no such file or directory")) ∧
    findMigrationsDir deletedWdEnv =
      (.error (.wrap (lit "failed to get working directory")
        (.other (lit "getwd: no such file or directory"))), [.getwd]) ∧
    findProjectRoot deletedWdEnv = (lit ".", [.getwd]) :=
  ⟨rfl, C8_getwd_failure_stops deletedWdEnv _ rfl⟩

/-- C8 fails for `findProjectRoot`: with the working directory deleted it returns the
path `.` and no failure. -/
theorem C8_findProjectRoot_returns_dot :
    deletedWdEnv.Getwd = .error (.other (lit "getwd: no such file or directory")) ∧
    (findProjectRoot deletedWdEnv).1 = lit "." := by
  constructor <;> rfl

/-! ### `EnsureDatabase` -/

/-- The server reads the statement `EnsureDatabase` sends as a request to create
exactly the database `dbName`. -/
theorem Server.exec_createStatement (srv : Server) (dbName : GoString) :
    srv.exec (createStatement dbName) =
      if dbName ∈ srv then .error (.other (lit "database already exists"))
      else .ok (dbName :: srv) := by
  have hpre : HasPrefix (createStatement dbName) (lit "CREATE DATABASE ") = true := by
    simp [HasPrefix, createStatement]
  have hdrop : (createStatement dbName).drop (lit "CREATE DATABASE ").length =
      quotedDBName dbName := by
    simp [createStatement]
  have hread : readQuotedIdent (quotedDBName dbName) = some (dbName, []) := by
    simp [quotedDBName, readQuotedIdent, readQuotedBody_safeDBName]
  unfold Server.exec
  rw [hpre, hdrop, hread]
  simp

theorem isCreateDatabase_createStatement (dbName : GoString) :
    Event.isCreateDatabase (.exec (createStatement dbName)) = true := by
  simp [Event.isCreateDatabase, HasPrefix, createStatement]

/-- With no error of its own, `pool.Exec` of the statement `EnsureDatabase` sends is the
server creating exactly the database `dbName`. -/
theorem poolExec_createStatement (env : Env) (srv : Server) (dbName : GoString) :
    poolExec env srv (createStatement dbName) =
      match env.execErr (createStatement dbName) with
      | some err => .error err
      | none =>
        if dbName ∈ srv then .error (.other (lit "database already exists"))
        else .ok (dbName :: srv) := by
  unfold poolExec
  rw [Server.exec_createStatement]

/-- What `EnsureDatabase` does when the connection, the catalog query and any
`CREATE DATABASE` it sends succeed. -/
theorem EnsureDatabase_of_connected (env : Env) (user password host port dbName : GoString)
    (srv : Server)
    (hconn : env.poolNew (defaultDBURL user password host port) = none)
    (hquery : env.queryRow dbName = none)
    (hexec : env.execErr (createStatement dbName) = none) :
    EnsureDatabase env user password host port dbName srv =
      if dbName ∈ srv then
        ⟨none, srv, [.poolNew (defaultDBURL user password host port), .queryRow dbName,
          .poolClose]⟩
      else
        ⟨none, dbName :: srv, [.poolNew (defaultDBURL user password host port),
          .queryRow dbName, .exec (createStatement dbName), .printCreated dbName,
          .poolClose]⟩ := by
  unfold EnsureDatabase
  simp only [hconn, hquery, poolExec_createStatement, hexec, Server.databaseExists]
  by_cases hmem : dbName ∈ srv <;> simp [hmem]

/-- What `EnsureDatabase` does when the connection and the catalog query succeed, the
database is not there and the `CREATE DATABASE` comes back with an error: it sends the
statement, returns the error wrapped and leaves the server as it was. -/
theorem EnsureDatabase_of_refused (env : Env) (user password host port dbName : GoString)
    (srv : Server) (err : GoError)
    (hconn : env.poolNew (defaultDBURL user password host port) = none)
    (hquery : env.queryRow dbName = none)
    (hexec : env.execErr (createStatement dbName) = some err)
    (hmem : dbName ∉ srv) :
    EnsureDatabase env user password host port dbName srv =
      ⟨some (.wrap (lit "failed to create database " ++ dbName) err), srv,
        [.poolNew (defaultDBURL user password host port), .queryRow dbName,
          .exec (createStatement dbName), .poolClose]⟩ := by
  unfold EnsureDatabase
  simp only [hconn, hquery, poolExec_createStatement, hexec, Server.databaseExists]
  simp [hmem]

/-- After a successful `EnsureDatabase` the server holds the database. -/
theorem EnsureDatabase_ok_mem (env : Env) (user password host port dbName : GoString)
    (srv : Server)
    (hok : (EnsureDatabase env user password host port dbName srv).err = none) :
    dbName ∈ (EnsureDatabase env user password host port dbName srv).server := by
  unfold EnsureDatabase at hok ⊢
  simp only [poolExec_createStatement, Server.databaseExists] at hok ⊢
  split
  · simp_all
  · split
    · simp_all
    · by_cases hmem : dbName ∈ srv
      · simp [hmem]
      · cases hx : env.execErr (createStatement dbName) with
        | none => simp [hmem]
        | some err => simp_all

/-- The function `EnsureDatabase` talks to the server only: it makes no directory lookup and no
call to the migration engine. -/
theorem EnsureDatabase_trace (env : Env) (user password host port dbName : GoString)
    (srv : Server) :
    ∀ ev ∈ (EnsureDatabase env user password host port dbName srv).trace,
      ev.isDirLookup = false ∧ ev.isEngineCall = false := by
  unfold EnsureDatabase
  simp only [poolExec_createStatement, Server.databaseExists]
  split
  · simp [Event.isDirLookup, Event.isEngineCall]
  · split
    · simp [Event.isDirLookup, Event.isEngineCall]
    · by_cases hmem : dbName ∈ srv
      · simp [hmem, Event.isDirLookup, Event.isEngineCall]
      · cases hx : env.execErr (createStatement dbName) <;>
          simp [hmem, Event.isDirLookup, Event.isEngineCall]

/-- C6 fails on the code: with the administrative connection and the catalog query
succeeding and `appdb` absent, a server that refuses `CREATE DATABASE` is sent the
statement by the first call and again by the second, two in all, and the second call
returns an error. -/
theorem C6_refused_create_sent_twice :
    refusingEnv.poolNew (defaultDBURL (lit "app") (lit "x") (lit "localhost") (lit "5432")) =
      none ∧
    refusingEnv.queryRow (lit "appdb") = none ∧
    createCount ((scenarioEnsure refusingEnv []).trace ++
      (scenarioEnsure refusingEnv (scenarioEnsure refusingEnv []).server).trace) = 2 ∧
    createCount (scenarioEnsure refusingEnv (scenarioEnsure refusingEnv []).server).trace = 1 ∧
    (scenarioEnsure refusingEnv (scenarioEnsure refusingEnv []).server).err =
      some (.wrap (lit "failed to create database appdb")
        (.other (lit "permission denied to create database"))) := by
  have h1 : scenarioEnsure refusingEnv [] = _ :=
    EnsureDatabase_of_refused refusingEnv (lit "app") (lit "x") (lit "localhost")
      (lit "5432") (lit "appdb") [] _ rfl rfl rfl (by decide)
  refine ⟨rfl, rfl, ?_, ?_, ?_⟩ <;> rw [h1] <;> simp only [] <;> rw [h1] <;> decide

/-- C6, as the code has it: over a server that is a set of database names, when the
administrative connection and the catalog query succeed and the `CREATE DATABASE`
statement does not come back with an error, two calls of `EnsureDatabase` in sequence
with the same parameters issue one `CREATE DATABASE` in total when the name was absent
and none when it was present; the second call issues none, returns no error and
leaves the server as the first call left it. -/
theorem C6_EnsureDatabase_idempotent (env : Env) (user password host port dbName : GoString)
    (srv : Server)
    (hconn : env.poolNew (defaultDBURL user password host port) = none)
    (hquery : env.queryRow dbName = none)
    (hexec : env.execErr (createStatement dbName) = none) :
    let first := EnsureDatabase env user password host port dbName srv
    let second := EnsureDatabase env user password host port dbName first.server
    createCount (first.trace ++ second.trace) = (if dbName ∈ srv then 0 else 1) ∧
    createCount (first.trace ++ second.trace) ≤ 1 ∧
    createCount second.trace = 0 ∧
    first.err = none ∧
    second.err = none ∧
    second.server = first.server := by
  intro first second
  have h1 : first = _ := EnsureDatabase_of_connected env user password host port dbName srv
    hconn hquery hexec
  have h2 : second = _ := EnsureDatabase_of_connected env user password host port dbName
    first.server hconn hquery hexec
  have hc := isCreateDatabase_createStatement dbName
  by_cases hmem : dbName ∈ srv
  · simp only [hmem, if_true] at h1
    simp only [h1, hmem, if_true] at h2
    simp [h1, h2, hmem, createCount, Event.isCreateDatabase]
  · simp only [hmem, if_false] at h1
    simp only [h1, List.mem_cons, true_or, if_true] at h2
    have hp : HasPrefix (createStatement dbName) (lit "CREATE DATABASE ") = true := hc
    simp [h1, h2, hmem, createCount, Event.isCreateDatabase, hp, List.countP_cons]

/-- On a fresh server the first call creates `appdb`, the second finds it: one
`CREATE DATABASE` in all, none and no error in the second call, the same server after
both. -/
theorem C6_EnsureDatabase_idempotent_witness :
    projectEnv.poolNew (defaultDBURL (lit "app") (lit "x") (lit "localhost") (lit "5432")) =
      none ∧
    projectEnv.queryRow (lit "appdb") = none ∧
    projectEnv.execErr (createStatement (lit "appdb")) = none ∧
    createCount ((scenarioEnsure projectEnv []).trace ++
      (scenarioEnsure projectEnv (scenarioEnsure projectEnv []).server).trace) = 1 ∧
    createCount (scenarioEnsure projectEnv (scenarioEnsure projectEnv []).server).trace = 0 ∧
    (scenarioEnsure projectEnv (scenarioEnsure projectEnv []).server).err = none ∧
    (scenarioEnsure projectEnv (scenarioEnsure projectEnv []).server).server =
      (scenarioEnsure projectEnv []).server ∧
    (scenarioEnsure projectEnv []).server = [lit "appdb"] :=
  have h := C6_EnsureDatabase_idempotent projectEnv (lit "app") (lit "x") (lit "localhost")
    (lit "5432") (lit "appdb") [] rfl rfl rfl
  ⟨rfl, rfl, rfl, h.1, h.2.2.1, h.2.2.2.2.1, h.2.2.2.2.2, by decide⟩

/-! ### `RunMigrations` -/

/-- The function `RunMigrations` with its three copies of the engine call written once. -/
theorem RunMigrations_eq (env : Env) (user password host port dbName : GoString)
    (srv : Server) :
    RunMigrations env user password host port dbName srv =
      match (EnsureDatabase env user password host port dbName srv).err with
      | some err =>
        ⟨some (.wrap (lit "failed to ensure database exists") err),
          (EnsureDatabase env user password host port dbName srv).server,
          (EnsureDatabase env user password host port dbName srv).trace⟩
      | none =>
        match findMigrationsDir env with
        | (.error err, t1) =>
          ⟨some err, (EnsureDatabase env user password host port dbName srv).server,
            (EnsureDatabase env user password host port dbName srv).trace ++ t1⟩
        | (.ok migrationsPath, t1) =>
          match env.Getwd with
          | .error err =>
            ⟨some (.wrap (lit "failed to get working directory") err),
              (EnsureDatabase env user password host port dbName srv).server,
              (EnsureDatabase env user password host port dbName srv).trace ++ t1 ++
                [.getwd]⟩
          | .ok wd =>
            match env.Rel wd migrationsPath with
            | .error _ =>
              match Abs env migrationsPath with
              | (.error err, t2) =>
                ⟨some (.wrap (lit "failed to get migrations path") err),
                  (EnsureDatabase env user password host port dbName srv).server,
                  (EnsureDatabase env user password host port dbName srv).trace ++ t1 ++
                    [.getwd] ++ t2⟩
              | (.ok absPath, t2) =>
                newAndUp env (fallbackFileURL (ToSlash env absPath))
                  (dbURL user password host port dbName)
                  (EnsureDatabase env user password host port dbName srv).server
                  ((EnsureDatabase env user password host port dbName srv).trace ++ t1 ++
                    [.getwd] ++ t2)
            | .ok relPath =>
              newAndUp env (lit "file://" ++ normalizeRelPath env relPath)
                (dbURL user password host port dbName)
                (EnsureDatabase env user password host port dbName srv).server
                ((EnsureDatabase env user password host port dbName srv).trace ++ t1 ++
                  [.getwd]) := by
  unfold RunMigrations newAndUp fallbackFileURL
  simp only
  repeat' split
  all_goals rfl

/-- The three ways a run of `RunMigrations` can go: provisioning fails; provisioning
succeeds and a step before the engine fails, after directory lookups only; or
provisioning succeeds and, after directory lookups only, the engine is called. -/
theorem RunMigrations_cases (env : Env) (user password host port dbName : GoString)
    (srv : Server) :
    (∃ err, (EnsureDatabase env user password host port dbName srv).err = some err ∧
      RunMigrations env user password host port dbName srv =
        ⟨some (.wrap (lit "failed to ensure database exists") err),
          (EnsureDatabase env user password host port dbName srv).server,
          (EnsureDatabase env user password host port dbName srv).trace⟩) ∨
    ((EnsureDatabase env user password host port dbName srv).err = none ∧
      ∃ t err, (∀ ev ∈ t, ev.isDirLookup = true) ∧
        RunMigrations env user password host port dbName srv =
          ⟨some err, (EnsureDatabase env user password host port dbName srv).server,
            (EnsureDatabase env user password host port dbName srv).trace ++ t⟩) ∨
    ((EnsureDatabase env user password host port dbName srv).err = none ∧
      ∃ t fileURL, (∀ ev ∈ t, ev.isDirLookup = true) ∧
        RunMigrations env user password host port dbName srv =
          newAndUp env fileURL (dbURL user password host port dbName)
            (EnsureDatabase env user password host port dbName srv).server
            ((EnsureDatabase env user password host port dbName srv).trace ++ t)) := by
  have ht1 := findMigrationsDir_trace env
  rw [RunMigrations_eq]
  split
  · next err heq => exact Or.inl ⟨err, heq, rfl⟩
  · next heq =>
    right
    split
    · next err t1 h1 =>
      rw [h1] at ht1
      exact Or.inl ⟨heq, t1, err, ht1, rfl⟩
    · next mp t1 h1 =>
      rw [h1] at ht1
      have hg : ∀ ev ∈ t1 ++ [Event.getwd], ev.isDirLookup = true := by
        intro ev hev
        rcases List.mem_append.1 hev with h | h
        · exact ht1 ev h
        · simp only [List.mem_singleton] at h; subst h; rfl
      split
      · next err _ =>
        exact Or.inl ⟨heq, t1 ++ [.getwd], .wrap (lit "failed to get working directory") err,
          hg, by simp only [List.append_assoc]⟩
      · next wd _ =>
        split
        · have ht2 := Abs_trace env mp
          have hg2 : ∀ t2, (∀ ev ∈ t2, ev.isDirLookup = true) →
              ∀ ev ∈ t1 ++ [Event.getwd] ++ t2, ev.isDirLookup = true := by
            intro t2 h2 ev hev
            rcases List.mem_append.1 hev with h | h
            · exact hg ev h
            · exact h2 ev h
          split
          · next err t2 h2 =>
            rw [h2] at ht2
            exact Or.inl ⟨heq, t1 ++ [.getwd] ++ t2,
              .wrap (lit "failed to get migrations path") err, hg2 t2 ht2,
              by simp only [List.append_assoc]⟩
          · next absPath t2 h2 =>
            rw [h2] at ht2
            exact Or.inr ⟨heq, t1 ++ [.getwd] ++ t2, fallbackFileURL (ToSlash env absPath),
              hg2 t2 ht2, by simp only [List.append_assoc]⟩
        · next relPath _ =>
          exact Or.inr ⟨heq, t1 ++ [.getwd], lit "file://" ++ normalizeRelPath env relPath,
            hg, by simp only [List.append_assoc]⟩

theorem newAndUp_server (env : Env) (fileURL dbURL : GoString) (server : Server)
    (before : List Event) : (newAndUp env fileURL dbURL server before).server = server := by
  unfold newAndUp
  repeat' split
  all_goals rfl

/-- The trace of the engine call: what came before, then `migrate.New`, then possibly
`Up`, on the same two URLs. -/
theorem newAndUp_trace (env : Env) (fileURL dbURL : GoString) (server : Server)
    (before : List Event) :
    (newAndUp env fileURL dbURL server before).trace =
        before ++ [.migrateNew fileURL dbURL] ∨
    (newAndUp env fileURL dbURL server before).trace =
        before ++ [.migrateNew fileURL dbURL, .up fileURL dbURL] := by
  unfold newAndUp
  repeat' split
  all_goals simp

/-- When `Up` was called, the result of the engine call is decided by what `Up`
returned. -/
theorem newAndUp_err_of_up (env : Env) (fileURL dbURL : GoString) (server : Server)
    (before : List Event) (src db : GoString)
    (hbefore : ∀ ev ∈ before, ev.isEngineCall = false)
    (hup : Event.up src db ∈ (newAndUp env fileURL dbURL server before).trace) :
    (newAndUp env fileURL dbURL server before).err =
      match env.Up src db with
      | none => none
      | some err =>
        if err = .ErrNoChange then none
        else some (.wrap (lit "failed to run migrations") err) := by
  have hnot : Event.up src db ∉ before := by
    intro h
    have := hbefore _ h
    simp [Event.isEngineCall] at this
  unfold newAndUp at hup ⊢
  split at hup
  · simp [hnot] at hup
  · next hnew =>
    have hsd : src = fileURL ∧ db = dbURL := by
      split at hup
      · split at hup <;> simpa [hnot] using hup
      · simpa [hnot] using hup
    obtain ⟨rfl, rfl⟩ := hsd
    clear hup
    cases hu : env.Up src db with
    | none => rfl
    | some err => by_cases he : err = .ErrNoChange <;> simp [he]

theorem newAndUp_mem_migrateNew (env : Env) (fileURL dbURL : GoString) (server : Server)
    (before : List Event) :
    Event.migrateNew fileURL dbURL ∈ (newAndUp env fileURL dbURL server before).trace := by
  rcases newAndUp_trace env fileURL dbURL server before with h | h <;> simp [h]

/-- When the engine was made, `Up` is called on it and decides the result. -/
theorem newAndUp_of_created (env : Env) (fileURL dbURL : GoString) (server : Server)
    (before : List Event) (src db : GoString)
    (hbefore : ∀ ev ∈ before, ev.isEngineCall = false)
    (hmem : Event.migrateNew src db ∈ (newAndUp env fileURL dbURL server before).trace)
    (hnew : env.migrateNew src db = none) :
    Event.up src db ∈ (newAndUp env fileURL dbURL server before).trace := by
  have hnot : Event.migrateNew src db ∉ before := by
    intro h
    have := hbefore _ h
    simp [Event.isEngineCall] at this
  have hsd : src = fileURL ∧ db = dbURL := by
    rcases newAndUp_trace env fileURL dbURL server before with h | h <;>
      simpa [h, hnot] using hmem
  obtain ⟨rfl, rfl⟩ := hsd
  unfold newAndUp
  rw [hnew]
  simp only
  repeat' split
  all_goals simp

theorem engine_free_append (t1 t2 : List Event)
    (h1 : ∀ ev ∈ t1, ev.isDirLookup = false ∧ ev.isEngineCall = false)
    (h2 : ∀ ev ∈ t2, ev.isDirLookup = true) :
    ∀ ev ∈ t1 ++ t2, ev.isEngineCall = false := by
  intro ev hev
  rcases List.mem_append.1 hev with h | h
  · exact (h1 ev h).2
  · exact Event.not_engine_of_dirLookup ev (h2 ev h)

/-- When `Up` was called in a run of `RunMigrations`, what it returned decides the
result of the run. -/
theorem RunMigrations_err_of_up (env : Env) (user password host port dbName : GoString)
    (srv : Server) (src db : GoString)
    (hup : Event.up src db ∈ (RunMigrations env user password host port dbName srv).trace) :
    (RunMigrations env user password host port dbName srv).err =
      match env.Up src db with
      | none => none
      | some err =>
        if err = .ErrNoChange then none
        else some (.wrap (lit "failed to run migrations") err) := by
  have hr := EnsureDatabase_trace env user password host port dbName srv
  rcases RunMigrations_cases env user password host port dbName srv with
    ⟨err, _, hm⟩ | ⟨_, t, err, ht, hm⟩ | ⟨_, t, fileURL, ht, hm⟩
  · rw [hm] at hup
    have := (hr _ hup).2
    simp [Event.isEngineCall] at this
  · rw [hm] at hup
    have := engine_free_append _ t hr ht _ hup
    simp [Event.isEngineCall] at this
  · rw [hm] at hup ⊢
    exact newAndUp_err_of_up env _ _ _ _ src db (engine_free_append _ t hr ht) hup

/-- When the engine was made in a run of `RunMigrations`, `Up` is called on it. -/
theorem RunMigrations_up_of_created (env : Env) (user password host port dbName : GoString)
    (srv : Server) (src db : GoString)
    (hmem : Event.migrateNew src db ∈
      (RunMigrations env user password host port dbName srv).trace)
    (hnew : env.migrateNew src db = none) :
    Event.up src db ∈ (RunMigrations env user password host port dbName srv).trace := by
  have hr := EnsureDatabase_trace env user password host port dbName srv
  rcases RunMigrations_cases env user password host port dbName srv with
    ⟨err, _, hm⟩ | ⟨_, t, err, ht, hm⟩ | ⟨_, t, fileURL, ht, hm⟩
  · rw [hm] at hmem
    have := (hr _ hmem).2
    simp [Event.isEngineCall] at this
  · rw [hm] at hmem
    have := engine_free_append _ t hr ht _ hmem
    simp [Event.isEngineCall] at this
  · rw [hm] at hmem ⊢
    exact newAndUp_of_created env _ _ _ _ src db (engine_free_append _ t hr ht) hmem hnew

/-- C5: once the engine instance is created from a source URL and the database URL
(on any of the three URL branches), `Up` is called on it; if `Up` returns no error or
`migrate.ErrNoChange`, `RunMigrations` returns `nil`, and for every other error it
returns that error wrapped with `failed to run migrations`. -/
theorem C5_up_decides_result (env : Env) (user password host port dbName : GoString)
    (srv : Server) (src db : GoString)
    (hmem : Event.migrateNew src db ∈
      (RunMigrations env user password host port dbName srv).trace)
    (hnew : env.migrateNew src db = none) :
    Event.up src db ∈ (RunMigrations env user password host port dbName srv).trace ∧
    (env.Up src db = none ∨ env.Up src db = some .ErrNoChange →
      (RunMigrations env user password host port dbName srv).err = none) ∧
    (∀ err, env.Up src db = some err → err ≠ .ErrNoChange →
      (RunMigrations env user password host port dbName srv).err =
        some (.wrap (lit "failed to run migrations") err)) := by
  have hup := RunMigrations_up_of_created env user password host port dbName srv src db
    hmem hnew
  have herr := RunMigrations_err_of_up env user password host port dbName srv src db hup
  refine ⟨hup, ?_, ?_⟩
  · rintro (h | h) <;> simp [herr, h]
  · intro err h hne
    rw [herr, h]
    simp [hne]

/-- The source URL of the relative branch reaches `migrate.New`. -/
theorem RunMigrations_relative (env : Env) (user password host port dbName : GoString)
    (srv : Server) (migrationsPath wd relPath : GoString)
    (hensure : (EnsureDatabase env user password host port dbName srv).err = none)
    (hdir : (findMigrationsDir env).1 = .ok migrationsPath)
    (hwd : env.Getwd = .ok wd)
    (hrel : env.Rel wd migrationsPath = .ok relPath) :
    Event.migrateNew (lit "file://" ++ normalizeRelPath env relPath)
        (dbURL user password host port dbName) ∈
      (RunMigrations env user password host port dbName srv).trace := by
  rw [RunMigrations_eq, hensure]
  simp only
  rcases hfm : findMigrationsDir env with ⟨res, t1⟩
  rw [hfm] at hdir
  simp only at hdir
  subst hdir
  simp only [hwd, hrel]
  exact newAndUp_mem_migrateNew _ _ _ _ _

/-- The source URL of the absolute-path fallback reaches `migrate.New`. -/
theorem RunMigrations_fallback (env : Env) (user password host port dbName : GoString)
    (srv : Server) (migrationsPath wd absPath : GoString) (relErr : GoError)
    (hensure : (EnsureDatabase env user password host port dbName srv).err = none)
    (hdir : (findMigrationsDir env).1 = .ok migrationsPath)
    (hwd : env.Getwd = .ok wd)
    (hrel : env.Rel wd migrationsPath = .error relErr)
    (habs : (Abs env migrationsPath).1 = .ok absPath) :
    Event.migrateNew (fallbackFileURL (ToSlash env absPath))
        (dbURL user password host port dbName) ∈
      (RunMigrations env user password host port dbName srv).trace := by
  rw [RunMigrations_eq, hensure]
  simp only
  rcases hfm : findMigrationsDir env with ⟨res, t1⟩
  rw [hfm] at hdir
  simp only at hdir
  subst hdir
  simp only [hwd, hrel]
  rcases hab : Abs env migrationsPath with ⟨res2, t2⟩
  rw [hab] at habs
  simp only at habs
  subst habs
  simp only
  exact newAndUp_mem_migrateNew _ _ _ _ _

/-- An error of `findMigrationsDir` is what `RunMigrations` returns, as it is. -/
theorem RunMigrations_findMigrationsDir_error (env : Env)
    (user password host port dbName : GoString) (srv : Server) (err : GoError)
    (hensure : (EnsureDatabase env user password host port dbName srv).err = none)
    (hdir : (findMigrationsDir env).1 = .error err) :
    (RunMigrations env user password host port dbName srv).err = some err := by
  rw [RunMigrations_eq, hensure]
  simp only
  rcases hfm : findMigrationsDir env with ⟨res, t1⟩
  rw [hfm] at hdir
  simp only at hdir
  subst hdir
  rfl

/-! ### The scenario in the instances -/

theorem scenario_ensure_ok (env : Env)
    (hconn : env.poolNew (defaultDBURL (lit "app") (lit "x") (lit "localhost") (lit "5432")) =
      none)
    (hquery : env.queryRow (lit "appdb") = none)
    (hexec : env.execErr (createStatement (lit "appdb")) = none) :
    (EnsureDatabase env (lit "app") (lit "x") (lit "localhost") (lit "5432") (lit "appdb")
      []).err = none := by
  rw [EnsureDatabase_of_connected env _ _ _ _ _ _ hconn hquery hexec]
  simp

theorem projectEnv_dir : (findMigrationsDir projectEnv).1 = .ok (lit "/p/migrations") :=
  findMigrationsDir_of_found projectEnv (lit "/p/cmd") rfl 1 (by decide) (by decide)

theorem relFailsEnv_dir : (findMigrationsDir relFailsEnv).1 = .ok (lit "/p/migrations") :=
  findMigrationsDir_of_found relFailsEnv (lit "/p/cmd") rfl 1 (by decide) (by decide)

theorem localEnv_dir : (findMigrationsDir localEnv).1 = .ok (lit "/p/cmd/migrations") :=
  findMigrationsDir_of_found localEnv (lit "/p/cmd") rfl 0 (by decide) (by decide)

theorem windowsEnv_dir :
    (findMigrationsDir windowsEnv).1 = .ok (lit "C:\\p\\migrations") :=
  findMigrationsDir_of_found windowsEnv (lit "C:\\p\\cmd") rfl 1 (by decide) (by decide)

/-- The relative branch, with a dirty database: the run fails with the engine's error
wrapped. -/
theorem scenario_relative_branch :
    Event.migrateNew (lit "file://./migrations") scenarioDBURL ∈ (scenarioRun localEnv).trace ∧
    (scenarioRun localEnv).err = some (.wrap (lit "failed to run migrations")
      (.other (lit "Dirty database version 2. Fix and force version."))) := by
  have hm := RunMigrations_relative localEnv (lit "app") (lit "x") (lit "localhost")
    (lit "5432") (lit "appdb") [] _ _ _ (scenario_ensure_ok localEnv rfl rfl rfl) localEnv_dir
    rfl (show localEnv.Rel (lit "/p/cmd") (lit "/p/cmd/migrations") = .ok (lit "migrations")
      from rfl)
  have hup := RunMigrations_up_of_created localEnv _ _ _ _ _ _ _ _ hm rfl
  exact ⟨hm, RunMigrations_err_of_up localEnv _ _ _ _ _ _ _ _ hup⟩

/-- The fallback branch on POSIX: the source URL is `file:///p/migrations`, and the run
succeeds. -/
theorem scenario_fallback_posix :
    Event.migrateNew (lit "file:///p/migrations") scenarioDBURL ∈
      (scenarioRun relFailsEnv).trace ∧
    (scenarioRun relFailsEnv).err = none := by
  have hm := RunMigrations_fallback relFailsEnv (lit "app") (lit "x") (lit "localhost")
    (lit "5432") (lit "appdb") [] _ _ (lit "/p/migrations") _
    (scenario_ensure_ok relFailsEnv rfl rfl rfl) relFailsEnv_dir rfl
    (show relFailsEnv.Rel (lit "/p/cmd") (lit "/p/migrations") = .error _ from rfl)
    rfl
  have hup := RunMigrations_up_of_created relFailsEnv _ _ _ _ _ _ _ _ hm rfl
  exact ⟨hm, RunMigrations_err_of_up relFailsEnv _ _ _ _ _ _ _ _ hup⟩

/-- The fallback branch on Windows: the source URL is `file:///C:/p/migrations`, and
the run succeeds. -/
theorem scenario_fallback_windows :
    Event.migrateNew (lit "file:///C:/p/migrations") scenarioDBURL ∈
      (scenarioRun windowsEnv).trace ∧
    (scenarioRun windowsEnv).err = none := by
  have hm := RunMigrations_fallback windowsEnv (lit "app") (lit "x") (lit "localhost")
    (lit "5432") (lit "appdb") [] _ _ (lit "C:\\p\\migrations") _
    (scenario_ensure_ok windowsEnv rfl rfl rfl) windowsEnv_dir rfl
    (show windowsEnv.Rel (lit "C:\\p\\cmd") (lit "C:\\p\\migrations") = .error _ from rfl)
    rfl
  have hup := RunMigrations_up_of_created windowsEnv _ _ _ _ _ _ _ _ hm rfl
  exact ⟨hm, RunMigrations_err_of_up windowsEnv _ _ _ _ _ _ _ _ hup⟩

/-! ### The claims about `RunMigrations` -/

/-- With no migrations pending (`Up` returns `migrate.ErrNoChange`) the run from `/p/cmd`
of `projectFS` succeeds. -/
theorem C5_up_decides_result_witness :
    Event.migrateNew (lit "file://../migrations") scenarioDBURL ∈
      (scenarioRun noChangeEnv).trace ∧
    noChangeEnv.migrateNew (lit "file://../migrations") scenarioDBURL = none ∧
    noChangeEnv.Up (lit "file://../migrations") scenarioDBURL = some .ErrNoChange ∧
    (scenarioRun noChangeEnv).err = none :=
  have hdir : (findMigrationsDir noChangeEnv).1 = .ok (lit "/p/migrations") :=
    findMigrationsDir_of_found noChangeEnv (lit "/p/cmd") rfl 1 (by decide) (by decide)
  have hm : Event.migrateNew (lit "file://../migrations") scenarioDBURL ∈
      (scenarioRun noChangeEnv).trace :=
    RunMigrations_relative noChangeEnv (lit "app") (lit "x") (lit "localhost") (lit "5432")
      (lit "appdb") [] (lit "/p/migrations") (lit "/p/cmd") (lit "../migrations")
      (scenario_ensure_ok noChangeEnv rfl rfl rfl) hdir rfl rfl
  ⟨hm, rfl, rfl,
    (C5_up_decides_result noChangeEnv (lit "app") (lit "x") (lit "localhost") (lit "5432")
      (lit "appdb") [] (lit "file://../migrations") scenarioDBURL hm rfl).2.1 (Or.inr rfl)⟩

/-- C7: when `EnsureDatabase` returns an error, `RunMigrations` returns it wrapped with
`failed to ensure database exists`, having made no directory lookup and no call to the
engine; the trace of `RunMigrations` starts with that of `EnsureDatabase`, which holds
no call to the engine; and whenever the engine is called, `EnsureDatabase` had returned
success and the server holds the target database. -/
theorem C7_migrations_after_ensure (env : Env) (user password host port dbName : GoString)
    (srv : Server) :
    (∀ err, (EnsureDatabase env user password host port dbName srv).err = some err →
      RunMigrations env user password host port dbName srv =
        ⟨some (.wrap (lit "failed to ensure database exists") err),
          (EnsureDatabase env user password host port dbName srv).server,
          (EnsureDatabase env user password host port dbName srv).trace⟩ ∧
      ∀ ev ∈ (RunMigrations env user password host port dbName srv).trace,
        ev.isDirLookup = false ∧ ev.isEngineCall = false) ∧
    (∃ rest, (RunMigrations env user password host port dbName srv).trace =
        (EnsureDatabase env user password host port dbName srv).trace ++ rest ∧
      ∀ ev ∈ (EnsureDatabase env user password host port dbName srv).trace,
        ev.isEngineCall = false) ∧
    (∀ ev ∈ (RunMigrations env user password host port dbName srv).trace,
      ev.isEngineCall = true →
        (EnsureDatabase env user password host port dbName srv).err = none ∧
        (RunMigrations env user password host port dbName srv).server =
          (EnsureDatabase env user password host port dbName srv).server ∧
        dbName ∈ (RunMigrations env user password host port dbName srv).server) := by
  have hr := EnsureDatabase_trace env user password host port dbName srv
  have hmem := EnsureDatabase_ok_mem env user password host port dbName srv
  rcases RunMigrations_cases env user password host port dbName srv with
    ⟨err, he, hm⟩ | ⟨he, t, err, ht, hm⟩ | ⟨he, t, fileURL, ht, hm⟩
  · refine ⟨?_, ⟨[], by simp [hm], fun ev hev => (hr ev hev).2⟩, ?_⟩
    · intro err' he'
      rw [he] at he'
      cases he'
      refine ⟨hm, ?_⟩
      rw [hm]
      exact hr
    · intro ev hev heng
      rw [hm] at hev
      have := (hr ev hev).2
      simp [heng] at this
  · refine ⟨?_, ⟨t, by simp [hm], fun ev hev => (hr ev hev).2⟩, ?_⟩
    · intro err' he'
      rw [he] at he'
      cases he'
    · intro ev hev heng
      rw [hm] at hev
      have := engine_free_append _ t hr ht ev hev
      simp [heng] at this
  · have hsrv : (RunMigrations env user password host port dbName srv).server =
        (EnsureDatabase env user password host port dbName srv).server := by
      rw [hm, newAndUp_server]
    refine ⟨?_, ?_, ?_⟩
    · intro err' he'
      rw [he] at he'
      cases he'
    · rcases newAndUp_trace env fileURL (dbURL user password host port dbName)
          (EnsureDatabase env user password host port dbName srv).server
          ((EnsureDatabase env user password host port dbName srv).trace ++ t) with h | h
      · exact ⟨t ++ [.migrateNew fileURL (dbURL user password host port dbName)],
          by rw [hm, h, List.append_assoc], fun ev hev => (hr ev hev).2⟩
      · exact ⟨t ++ [.migrateNew fileURL (dbURL user password host port dbName),
            .up fileURL (dbURL user password host port dbName)],
          by rw [hm, h, List.append_assoc], fun ev hev => (hr ev hev).2⟩
    · intro ev _ _
      exact ⟨he, hsrv, hsrv ▸ hmem he⟩

/-- With the server refusing connections the run stops at `EnsureDatabase`: one call,
to the pool, and the wrapped error. -/
theorem C7_migrations_after_ensure_witness :
    scenarioRun unreachableEnv =
      ⟨some (.wrap (lit "failed to ensure database exists")
          (.wrap (lit "failed to connect to postgres database")
            (.other (lit "connection refused")))), [],
        [.poolNew (defaultDBURL (lit "app") (lit "x") (lit "localhost") (lit "5432"))]⟩ :=
  ((C7_migrations_after_ensure unreachableEnv (lit "app") (lit "x") (lit "localhost")
    (lit "5432") (lit "appdb") []).1 _ rfl).1

/-- C9 fails on the code: with the working directory deleted, `findMigrationsDir`
returns an error and `RunMigrations` returns that very error, with no context of its
own added. -/
theorem C9_findMigrationsDir_error_returned_unwrapped :
    (findMigrationsDir deletedWdEnv).1 =
      .error (.wrap (lit "failed to get working directory")
        (.other (lit "getwd: no such file or directory"))) ∧
    (scenarioRun deletedWdEnv).err =
      some (.wrap (lit "failed to get working directory")
        (.other (lit "getwd: no such file or directory"))) :=
  ⟨rfl, RunMigrations_findMigrationsDir_error deletedWdEnv _ _ _ _ _ _ _
    (scenario_ensure_ok deletedWdEnv rfl rfl rfl) rfl⟩

/-! ### The source URL -/

/-- C4 fails on the code: from `/p/cmd`, with the migrations directory found in the
parent `/p`, `filepath.Rel` computes `../migrations`; the guard of line 141 tests for a
leading `.`, not for `./` as the comment of line 140 says, so the normalized path is
`../migrations` unchanged, it does not begin with `./`, and the source URL handed to
the engine is `file://../migrations`. -/
theorem C4_parent_directory_not_dot_slash :
    (findMigrationsDir projectEnv).1 = .ok (lit "/p/migrations") ∧
    projectEnv.Rel (lit "/p/cmd") (lit "/p/migrations") = .ok (lit "../migrations") ∧
    normalizeRelPath projectEnv (lit "../migrations") = lit "../migrations" ∧
    HasPrefix (normalizeRelPath projectEnv (lit "../migrations")) (lit "./") = false ∧
    Event.migrateNew (lit "file://../migrations") scenarioDBURL ∈
      (scenarioRun projectEnv).trace :=
  ⟨projectEnv_dir, rfl, by decide, by decide,
    RunMigrations_relative projectEnv (lit "app") (lit "x") (lit "localhost") (lit "5432")
      (lit "appdb") [] (lit "/p/migrations") (lit "/p/cmd") (lit "../migrations")
      (scenario_ensure_ok projectEnv rfl rfl rfl) projectEnv_dir rfl rfl⟩

theorem TrimPrefix_slash (p : GoString) : TrimPrefix p (lit "/") = dropLeadingSlash p := by
  cases p with
  | nil => rfl
  | cons c cs =>
    by_cases h : c = 47
    · subst h
      simp [TrimPrefix, HasPrefix, lit, dropLeadingSlash]
    · have h' : ¬ (47 : UInt8) = c := fun e => h e.symm
      simp [TrimPrefix, HasPrefix, lit, dropLeadingSlash, h, h']

theorem fallbackFileURL_eq (p : GoString) : fallbackFileURL p = absoluteSourceURL p := by
  simp [fallbackFileURL, absoluteSourceURL, TrimPrefix_slash]

/-- C10: in the absolute-path fallback (`filepath.Rel` failed, `filepath.Abs`
succeeded), with `p` the absolute path with forward slashes, the source URL handed to
the engine is `file:///` followed by `p` less one leading `/` when `p` is longer than
one byte and its second byte is `:`, and `file://` followed by `p` otherwise; for a
path `/rest` of the second kind that URL reads `file:///rest`. -/
theorem C10_fallback_source_url (env : Env) (user password host port dbName : GoString)
    (srv : Server) (migrationsPath wd absPath : GoString) (relErr : GoError)
    (hensure : (EnsureDatabase env user password host port dbName srv).err = none)
    (hdir : (findMigrationsDir env).1 = .ok migrationsPath)
    (hwd : env.Getwd = .ok wd)
    (hrel : env.Rel wd migrationsPath = .error relErr)
    (habs : (Abs env migrationsPath).1 = .ok absPath) :
    Event.migrateNew (absoluteSourceURL (ToSlash env absPath))
        (dbURL user password host port dbName) ∈
      (RunMigrations env user password host port dbName srv).trace ∧
    (1 < (ToSlash env absPath).length ∧ (ToSlash env absPath)[1]? = some 58 →
      absoluteSourceURL (ToSlash env absPath) =
        lit "file:///" ++ dropLeadingSlash (ToSlash env absPath)) ∧
    (¬ (1 < (ToSlash env absPath).length ∧ (ToSlash env absPath)[1]? = some 58) →
      absoluteSourceURL (ToSlash env absPath) = lit "file://" ++ ToSlash env absPath ∧
      ∀ rest, ToSlash env absPath = 47 :: rest →
        absoluteSourceURL (ToSlash env absPath) = lit "file:///" ++ rest) := by
  refine ⟨?_, ?_, ?_⟩
  · rw [← fallbackFileURL_eq]
    exact RunMigrations_fallback env user password host port dbName srv migrationsPath wd
      absPath relErr hensure hdir hwd hrel habs
  · intro h
    simp [absoluteSourceURL, h]
  · intro h
    have hu : absoluteSourceURL (ToSlash env absPath) = lit "file://" ++ ToSlash env absPath := by
      simp only [absoluteSourceURL, h, if_false]
    refine ⟨hu, ?_⟩
    intro rest hrest
    rw [hu, hrest]
    simp [lit]

/-- On Windows, from `C:\p\cmd` with a failing `filepath.Rel`, the absolute path
`C:\p\migrations` gives the source URL `file:///C:/p/migrations`. -/
theorem C10_fallback_source_url_witness :
    (EnsureDatabase windowsEnv (lit "app") (lit "x") (lit "localhost") (lit "5432")
      (lit "appdb") []).err = none ∧
    (findMigrationsDir windowsEnv).1 = .ok (lit "C:\\p\\migrations") ∧
    windowsEnv.Getwd = .ok (lit "C:\\p\\cmd") ∧
    windowsEnv.Rel (lit "C:\\p\\cmd") (lit "C:\\p\\migrations") =
      .error (.other (lit "Rel: can't make path relative")) ∧
    (Abs windowsEnv (lit "C:\\p\\migrations")).1 = .ok (lit "C:\\p\\migrations") ∧
    ToSlash windowsEnv (lit "C:\\p\\migrations") = lit "C:/p/migrations" ∧
    Event.migrateNew (lit "file:///C:/p/migrations") scenarioDBURL ∈
      (scenarioRun windowsEnv).trace :=
  ⟨scenario_ensure_ok windowsEnv rfl rfl rfl, windowsEnv_dir, rfl, rfl, rfl, by decide,
    (C10_fallback_source_url windowsEnv (lit "app") (lit "x") (lit "localhost")
      (lit "5432") (lit "appdb") [] (lit "C:\\p\\migrations") (lit "C:\\p\\cmd")
      (lit "C:\\p\\migrations") (.other (lit "Rel: can't make path relative"))
      (scenario_ensure_ok windowsEnv rfl rfl rfl) windowsEnv_dir rfl rfl rfl).1⟩

end JobQueue
